import Mathlib

/-!
Verification development for the FileConverter repository.

The repository converts MS Office documents to PDF through the external
office applications' automation surface.  `converter.py` holds the single
conversion function `convert_to_pdf`; `main.py` exposes it through a FastAPI
upload endpoint `convert_files_endpoint`.

Shallow embedding notes:
* Paths are strings; the `os.path` helpers (`splitext`, `basename`, `dirname`,
  `join`) are translated from CPython's `posixpath`/`genericpath` sources
  (`/` as separator).
* Every fallible external call (filesystem existence tests, `os.makedirs`,
  and each COM automation call) is given its outcome by an environment
  record `Env`; the embedded function is total over all environments, and a
  trace of the external calls that were issued is returned alongside the
  result so that ordering claims can be stated.
* In `main.py` the two `os.makedirs(..., exist_ok=True)` bookkeeping calls
  are modelled as succeeding; per-file saving and conversion are fallible.
  `background_tasks.add_task(cleanup_temp_dir, ...)` is modelled as a
  boolean flag recording that deletion of the temporary job directory was
  scheduled.
-/

/-- Index of the last occurrence of `c` in the character list, as in
CPython's `str.rfind` restricted to a single-character needle. -/
def rfindIdx (c : Char) : List Char → Option Nat
  | [] => none
  | x :: xs =>
    match rfindIdx c xs with
    | some i => some (i + 1)
    | none => if x = c then some 0 else none

/-- CPython `genericpath._splitext` with `sep = '/'`, `extsep = '.'`:
split off the extension at the last dot, unless every character of the
basename before that dot is itself a dot. -/
def splitext (p : String) : String × String :=
  let cs := p.toList
  let sepIdx : Int := match rfindIdx '/' cs with | some i => (i : Int) | none => -1
  let dotIdx : Int := match rfindIdx '.' cs with | some i => (i : Int) | none => -1
  if dotIdx > sepIdx then
    let fnIdx := (sepIdx + 1).toNat
    let d := dotIdx.toNat
    if (List.range (d - fnIdx)).any (fun k => cs.get? (fnIdx + k) ≠ some '.') then
      (String.mk (cs.take d), String.mk (cs.drop d))
    else
      (p, "")
  else
    (p, "")

/-- CPython `posixpath.basename`: everything after the last slash. -/
def basename (p : String) : String :=
  let cs := p.toList
  let i := match rfindIdx '/' cs with | some j => j + 1 | none => 0
  String.mk (cs.drop i)

/-- CPython `posixpath.dirname`: everything up to the last slash, with
trailing slashes stripped unless the head is all slashes. -/
def dirname (p : String) : String :=
  let cs := p.toList
  let i := match rfindIdx '/' cs with | some j => j + 1 | none => 0
  let head := cs.take i
  if head ≠ [] ∧ head.any (fun c => c ≠ '/') then
    String.mk ((head.reverse.dropWhile (fun c => c = '/')).reverse)
  else
    String.mk head

/-- CPython `posixpath.join` for two components (`b.startswith('/')` and
`a.endswith('/')` are written as head/last character tests so that the
definition reduces in the kernel). -/
def joinPath (a b : String) : String :=
  if b.toList.head? = some '/' then b
  else if a = "" ∨ a.toList.getLast? = some '/' then a ++ b
  else a ++ "/" ++ b

/-- Python `str.lower()`, written as a character-list map so that it
reduces in the kernel (the extensions compared in this program are ASCII,
where `Char.toLower` agrees with Python). -/
def lowerStr (s : String) : String := String.mk (s.toList.map Char.toLower)

/-- The extension-to-application mapping of `converter.py`
(`SUPPORTED_EXTENSIONS`). -/
def SUPPORTED_EXTENSIONS : List (String × String) :=
  [(".doc", "Word.Application"),
   (".docx", "Word.Application"),
   (".xls", "Excel.Application"),
   (".xlsx", "Excel.Application"),
   (".ppt", "PowerPoint.Application"),
   (".pptx", "PowerPoint.Application")]

/-- The application-to-PDF-format-code mapping of `converter.py`
(`PDF_FORMAT_CODE`). -/
def PDF_FORMAT_CODE : List (String × Int) :=
  [("Word.Application", 17),
   ("Excel.Application", 0),
   ("PowerPoint.Application", 32)]

/-- Outcomes of the external calls made during one run of `convert_to_pdf`.
Each field is the behaviour the outside world (filesystem, COM automation
surface) exhibits when the corresponding call is issued. -/
structure Env where
  inputExists : Bool
  outputDirExists : Bool
  makedirs : Except String Unit
  createObject : Except String Unit
  setVisible : Except String Unit
  openDoc : Except String Unit
  exportCall : Except String Unit
  fallbackSaveAs : Except String Unit

/-- Observable external calls issued by `convert_to_pdf` into the
automation surface, in program order.  `exportNative` carries the format
code handed to the application's own PDF export; `fallbackSaveAs` carries
the generic save-as format code. -/
inductive Ev where
  | createCall
  | openCall
  | exportNative (fmt : Int)
  | fallbackSaveAs (fmt : Int)
  | closeDoc
  | quitApp
  deriving DecidableEq, Repr

/-- Result of the `try` body of `convert_to_pdf` (lines 74-109 of
`converter.py`): the outcome, whether the local variables `app` and `doc`
were assigned a live object, and the calls issued. -/
structure ComTryResult where
  outcome : Except String Unit
  appAssigned : Bool
  docAssigned : Bool
  trace : List Ev

/-- The `try` body of `convert_to_pdf`: create the application object, hide
it, then per application open the document and export it.  Only the Excel
branch has the documented fallback: `ExportAsFixedFormat` first, then
`SaveAs` with format code 57, re-raising a combined error when both fail.
Word and PowerPoint issue a single `SaveAs` with their native PDF format
code. -/
def comTry (app_name : String) (pdf_format : Int) (env : Env) : ComTryResult :=
  match env.createObject with
  | .error e => ⟨.error e, false, false, [.createCall]⟩
  | .ok _ =>
    match env.setVisible with
    | .error e => ⟨.error e, true, false, [.createCall]⟩
    | .ok _ =>
      if app_name = "Word.Application" then
        match env.openDoc with
        | .error e => ⟨.error e, true, false, [.createCall, .openCall]⟩
        | .ok _ =>
          match env.exportCall with
          | .error e => ⟨.error e, true, true, [.createCall, .openCall, .exportNative pdf_format]⟩
          | .ok _ => ⟨.ok (), true, true, [.createCall, .openCall, .exportNative pdf_format]⟩
      else if app_name = "Excel.Application" then
        match env.openDoc with
        | .error e => ⟨.error e, true, false, [.createCall, .openCall]⟩
        | .ok _ =>
          match env.exportCall with
          | .ok _ => ⟨.ok (), true, true, [.createCall, .openCall, .exportNative pdf_format]⟩
          | .error e1 =>
            match env.fallbackSaveAs with
            | .ok _ =>
              ⟨.ok (), true, true,
               [.createCall, .openCall, .exportNative pdf_format, .fallbackSaveAs 57]⟩
            | .error e2 =>
              ⟨.error ("Excel PDF 변환 실패: ExportAsFixedFormat 및 SaveAs 모두 실패 - "
                  ++ e1 ++ "; " ++ e2),
               true, true,
               [.createCall, .openCall, .exportNative pdf_format, .fallbackSaveAs 57]⟩
      else if app_name = "PowerPoint.Application" then
        match env.openDoc with
        | .error e => ⟨.error e, true, false, [.createCall, .openCall]⟩
        | .ok _ =>
          match env.exportCall with
          | .error e => ⟨.error e, true, true, [.createCall, .openCall, .exportNative pdf_format]⟩
          | .ok _ => ⟨.ok (), true, true, [.createCall, .openCall, .exportNative pdf_format]⟩
      else
        ⟨.ok (), true, false, [.createCall]⟩

/-- The `try`/`finally` pair of `convert_to_pdf`: after the body, the
`finally` block closes the document when one was opened and quits the
application when one was created; failures of those two cleanup calls are
caught and only logged, so they do not change the outcome. -/
def comPhase (app_name : String) (pdf_format : Int) (env : Env) :
    Except String Unit × List Ev :=
  let t := comTry app_name pdf_format env
  (t.outcome,
   t.trace ++ (if t.docAssigned then [Ev.closeDoc] else [])
           ++ (if t.appAssigned then [Ev.quitApp] else []))

/-- The output directory resolved by `convert_to_pdf` lines 54-57: the
output path argument, or the input file's directory when that argument is
the empty string. -/
def resolvedOutputDir (input_path output_path : String) : String :=
  if output_path = "" then dirname input_path else output_path

/-- The PDF path built by `convert_to_pdf` line 66: output directory joined
with the input's base name, extension replaced by `.pdf`. -/
def pdf_output_path (input_path output_path : String) : String :=
  joinPath (resolvedOutputDir input_path output_path)
    (basename (splitext input_path).1 ++ ".pdf")

/-- Translation of `convert_to_pdf` (`converter.py` lines 32-147): check
the input exists, look the lowercased extension up in
`SUPPORTED_EXTENSIONS`, create the output directory when absent, then run
the COM phase.  Returns the (success flag, message) pair together with the
trace of external automation calls issued. -/
def convert_to_pdf (input_path output_path : String) (env : Env) :
    (Bool × String) × List Ev :=
  if env.inputExists = false then
    ((false, "오류: 입력 파일 없음 - " ++ input_path), [])
  else
    match SUPPORTED_EXTENSIONS.lookup (lowerStr (splitext input_path).2) with
    | none =>
      ((false, "오류: 지원하지 않는 파일 형식 - " ++ lowerStr (splitext input_path).2), [])
    | some app_name =>
      match (if env.outputDirExists then Except.ok () else env.makedirs : Except String Unit) with
      | .error e => ((false, "오류: 출력 디렉토리 생성 실패 - " ++ e), [])
      | .ok _ =>
        match comPhase app_name ((PDF_FORMAT_CODE.lookup app_name).getD 0) env with
        | (.ok _, tr) => ((true, pdf_output_path input_path output_path), tr)
        | (.error e, tr) =>
          ((false, "오류: 변환 실패 (" ++ input_path ++ ") - " ++ e), tr)

/-- Substring test: CPython `needle in hay` for strings. -/
def containsSub (needle hay : List Char) : Bool :=
  (List.range (hay.length + 1)).any (fun i => needle.isPrefixOf (hay.drop i))

/-- The path-traversal guard of `main.py` line 69:
`any(c in output_subdir for c in ['/', '\\', '..'])`. -/
def hasTraversalChar (s : String) : Bool :=
  containsSub ['/'] s.toList || containsSub ['\\'] s.toList
    || containsSub ['.', '.'] s.toList

/-- Python truthiness of the optional `output_subdir` form field:
`None` and the empty string are falsy. -/
def truthyOpt : Option String → Bool
  | none => false
  | some s => !(s = "")

/-- One element of the `results` list built by `convert_files_endpoint`:
a `filename`/`success`/`message` record. -/
structure ConversionRecord where
  filename : String
  success : Bool
  message : String
  deriving DecidableEq, Repr

/-- Per-file external actions of the endpoint's upload loop: saving the
uploaded bytes into the temporary job directory, and calling
`convert_to_pdf`.  Each action is tagged with the index of the loop
iteration that issued it. -/
inductive EAct where
  | save
  | convertCall
  deriving DecidableEq, Repr

/-- `TEMP_UPLOAD_DIR` of `main.py`. -/
def TEMP_UPLOAD_DIR : String := "temp_uploads"

/-- `DEFAULT_OUTPUT_DIR` of `main.py`. -/
def DEFAULT_OUTPUT_DIR : String := "converted_pdfs"

/-- One uploaded file as the endpoint sees it: its client-supplied
filename, the outcome of writing its bytes to disk, and the environment
met by `convert_to_pdf` if it is called for this file. -/
structure UpFile where
  filename : String
  saveOutcome : Except String Unit
  conv : Env

/-- Outcome of one run of `convert_files_endpoint`: the HTTP status (200,
or 400 for the path-traversal rejection), the per-file records (empty on
rejection), whether deletion of the temporary job directory was scheduled
via `background_tasks.add_task(cleanup_temp_dir, ...)`, and the per-file
external actions issued. -/
structure EndpointRun where
  status : Nat
  results : List ConversionRecord
  cleanupScheduled : Bool
  trace : List (Nat × EAct)

/-- The per-request temporary job directory (`main.py` line 61). -/
def tempJobDir (job_id : String) : String :=
  joinPath TEMP_UPLOAD_DIR job_id

/-- The resolved final output directory (`main.py` lines 66-75), for a
request that passed the traversal guard. -/
def finalOutputDir (output_subdir : Option String) : String :=
  if truthyOpt output_subdir then
    joinPath DEFAULT_OUTPUT_DIR (output_subdir.getD "")
  else
    DEFAULT_OUTPUT_DIR

/-- The record appended for one uploaded file by the loop of
`convert_files_endpoint` (`main.py` lines 82-123): unsupported extension
and failed save produce failure records and skip the rest of the
iteration; otherwise the record carries the result of `convert_to_pdf`. -/
def fileRecord (temp_job_dir final_output_dir : String) (f : UpFile) :
    ConversionRecord :=
  match SUPPORTED_EXTENSIONS.lookup (lowerStr (splitext f.filename).2) with
  | none =>
    ⟨f.filename, false,
     "오류: 지원하지 않는 파일 형식 (" ++ lowerStr (splitext f.filename).2 ++ ")"⟩
  | some _ =>
    match f.saveOutcome with
    | .error e => ⟨f.filename, false, "오류: 파일 저장 실패 - " ++ e⟩
    | .ok _ =>
      ⟨f.filename,
       (convert_to_pdf (joinPath temp_job_dir f.filename) final_output_dir f.conv).1.1,
       (convert_to_pdf (joinPath temp_job_dir f.filename) final_output_dir f.conv).1.2⟩

/-- The external actions issued for the file processed at loop index `i`:
none when the extension is unsupported, only the save attempt when saving
fails, and save followed by the conversion call otherwise. -/
def fileEvents (i : Nat) (f : UpFile) : List (Nat × EAct) :=
  match SUPPORTED_EXTENSIONS.lookup (lowerStr (splitext f.filename).2) with
  | none => []
  | some _ =>
    match f.saveOutcome with
    | .error _ => [(i, EAct.save)]
    | .ok _ => [(i, EAct.save), (i, EAct.convertCall)]

/-- Translation of `convert_files_endpoint` (`main.py` lines 46-129).  The
handler creates the temporary job directory, rejects a truthy
`output_subdir` containing a traversal character with HTTP 400 after
scheduling cleanup, otherwise resolves the final output directory, runs
the upload loop sequentially, schedules cleanup and returns the records.
The two `os.makedirs(..., exist_ok=True)` bookkeeping calls are modelled
as succeeding. -/
def convert_files_endpoint (files : List UpFile) (output_subdir : Option String)
    (job_id : String) : EndpointRun :=
  let temp_job_dir := tempJobDir job_id
  if truthyOpt output_subdir && hasTraversalChar (output_subdir.getD "") then
    ⟨400, [], true, []⟩
  else
    let out_dir := finalOutputDir output_subdir
    ⟨200,
     files.map (fileRecord temp_job_dir out_dir),
     true,
     (files.enum.map (fun p => fileEvents p.1 p.2)).flatten⟩

example : hasTraversalChar "../etc" = true := by decide
example : hasTraversalChar "a/b" = true := by decide
example : hasTraversalChar "safe_name" = false := by decide
example : splitext "/data/report.docx" = ("/data/report", ".docx") := by decide
example : splitext "/a/.bashrc" = ("/a/.bashrc", "") := by decide
example : splitext "/a/b.c.d" = ("/a/b.c", ".d") := by decide
example : dirname "/data/report.docx" = "/data" := by decide
example : basename "/data/report" = "report" := by decide
example : joinPath "/data" "report.pdf" = "/data/report.pdf" := by decide
example : pdf_output_path "/data/report.docx" "" = "/data/report.pdf" := by decide
example : pdf_output_path "/data/report.docx" "/out/" = "/out/report.pdf" := by decide

theorem err_append (lit pre t : String) (h : lit = "오류: " ++ pre) :
    ∃ s, lit ++ t = "오류: " ++ s :=
  ⟨pre ++ t, by subst h; simp only [String.append_assoc]⟩

theorem err_append2 (lit pre t u : String) (h : lit = "오류: " ++ pre) :
    ∃ s, lit ++ t ++ u = "오류: " ++ s :=
  ⟨pre ++ (t ++ u), by subst h; simp only [String.append_assoc]⟩

/-- C1: for every input path, output path and behaviour of the external
world, `convert_to_pdf` returns an ordinary pair instead of propagating an
exception: on success the pair is `true` with the output PDF path, and on
every failure (missing input, unsupported extension, directory-creation
failure, or any error from the automation surface) the pair is `false`
with an error-message string. -/
theorem C1_convert_never_raises (input output : String) (env : Env) :
    ((convert_to_pdf input output env).1.1 = true ∧
      (convert_to_pdf input output env).1.2 = pdf_output_path input output) ∨
    ((convert_to_pdf input output env).1.1 = false ∧
      ∃ s, (convert_to_pdf input output env).1.2 = "오류: " ++ s) := by
  unfold convert_to_pdf
  split
  · exact Or.inr ⟨rfl,
      err_append "오류: 입력 파일 없음 - " "입력 파일 없음 - " input (by decide)⟩
  · split
    · exact Or.inr ⟨rfl,
        err_append "오류: 지원하지 않는 파일 형식 - " "지원하지 않는 파일 형식 - " _ (by decide)⟩
    · split
      · exact Or.inr ⟨rfl,
          err_append "오류: 출력 디렉토리 생성 실패 - " "출력 디렉토리 생성 실패 - " _ (by decide)⟩
      · split
        · exact Or.inl ⟨rfl, rfl⟩
        · exact Or.inr ⟨rfl,
            err_append2 "오류: 변환 실패 (" "변환 실패 (" _ _ (by decide)⟩

/-- Environment in which every external call succeeds. -/
def envAllOk : Env :=
  ⟨true, true, .ok (), .ok (), .ok (), .ok (), .ok (), .ok ()⟩

theorem convert_unsupported_ext (input output : String) (env : Env)
    (h : SUPPORTED_EXTENSIONS.lookup (lowerStr (splitext input).2) = none) :
    (convert_to_pdf input output env).1.1 = false ∧
    (convert_to_pdf input output env).2 = [] := by
  unfold convert_to_pdf
  split
  · exact ⟨rfl, rfl⟩
  · split
    · exact ⟨rfl, rfl⟩
    · rename_i app heq
      rw [h] at heq
      cases heq

theorem fileEvents_fst {i j : Nat} {a : EAct} {f : UpFile}
    (h : (i, a) ∈ fileEvents j f) : i = j := by
  unfold fileEvents at h
  split at h
  · cases h
  · split at h
    · simp at h; exact h.1
    · simp at h; rcases h with ⟨h1, _⟩ | ⟨h1, _⟩ <;> exact h1

theorem fileEvents_of_unsupported {j : Nat} {f : UpFile}
    (h : SUPPORTED_EXTENSIONS.lookup (lowerStr (splitext f.filename).2) = none) :
    fileEvents j f = [] := by
  unfold fileEvents
  rw [h]

theorem fileEvents_save_mem {j : Nat} {f : UpFile}
    (h : (SUPPORTED_EXTENSIONS.lookup (lowerStr (splitext f.filename).2)).isSome = true) :
    (j, EAct.save) ∈ fileEvents j f := by
  unfold fileEvents
  split
  · rename_i heq; rw [heq] at h; cases h
  · split <;> simp

theorem endpoint_not_rejected {files : List UpFile} {subdir : Option String}
    {jid : String}
    (h : (convert_files_endpoint files subdir jid).status = 200) :
    (truthyOpt subdir && hasTraversalChar (subdir.getD "")) = false := by
  by_contra hb
  have hb2 : (truthyOpt subdir && hasTraversalChar (subdir.getD "")) = true := by
    revert hb; cases (truthyOpt subdir && hasTraversalChar (subdir.getD "")) <;> simp
  unfold convert_files_endpoint at h
  rw [hb2] at h
  simp at h

theorem endpoint_results_eq {files : List UpFile} {subdir : Option String}
    {jid : String}
    (h : (convert_files_endpoint files subdir jid).status = 200) :
    (convert_files_endpoint files subdir jid).results =
      files.map (fileRecord (tempJobDir jid) (finalOutputDir subdir)) := by
  have hb := endpoint_not_rejected h
  unfold convert_files_endpoint
  rw [hb]
  rfl

theorem endpoint_trace_eq {files : List UpFile} {subdir : Option String}
    {jid : String}
    (h : (convert_files_endpoint files subdir jid).status = 200) :
    (convert_files_endpoint files subdir jid).trace =
      (files.enum.map (fun p => fileEvents p.1 p.2)).flatten := by
  have hb := endpoint_not_rejected h
  unfold convert_files_endpoint
  rw [hb]
  rfl

theorem endpoint_trace_mem {files : List UpFile} {subdir : Option String}
    {jid : String} {i : Nat} {a : EAct}
    (h200 : (convert_files_endpoint files subdir jid).status = 200)
    (h : (i, a) ∈ (convert_files_endpoint files subdir jid).trace) :
    ∃ f, files[i]? = some f ∧ (i, a) ∈ fileEvents i f := by
  rw [endpoint_trace_eq h200] at h
  rcases List.mem_flatten.mp h with ⟨s, hs, hmem⟩
  rcases List.mem_map.mp hs with ⟨⟨j, g⟩, hp, rfl⟩
  have hfst : i = j := fileEvents_fst hmem
  subst hfst
  exact ⟨g, List.mk_mem_enum_iff_getElem?.mp hp, hmem⟩

theorem endpoint_trace_mem_of {files : List UpFile} {subdir : Option String}
    {jid : String} {i : Nat} {a : EAct} {f : UpFile}
    (h200 : (convert_files_endpoint files subdir jid).status = 200)
    (hf : files[i]? = some f) (hin : (i, a) ∈ fileEvents i f) :
    (i, a) ∈ (convert_files_endpoint files subdir jid).trace := by
  rw [endpoint_trace_eq h200]
  refine List.mem_flatten.mpr ⟨fileEvents i f, ?_, hin⟩
  exact List.mem_map.mpr ⟨(i, f), List.mk_mem_enum_iff_getElem?.mpr hf, rfl⟩

/-- C2: an input whose lowercased extension is not in
`SUPPORTED_EXTENSIONS` is rejected before the external application is
touched: `convert_to_pdf` returns `false` having issued no external call
at all (in particular no application object is created), and the upload
endpoint records a per-file failure for such a file while issuing neither
the save of that file nor a `convert_to_pdf` call for it. -/
theorem C2_unsupported_rejected_early :
    (∀ (input output : String) (env : Env),
      SUPPORTED_EXTENSIONS.lookup (lowerStr (splitext input).2) = none →
      (convert_to_pdf input output env).1.1 = false ∧
      Ev.createCall ∉ (convert_to_pdf input output env).2) ∧
    (∀ (files : List UpFile) (subdir : Option String) (jid : String)
      (i : Nat) (f : UpFile),
      (convert_files_endpoint files subdir jid).status = 200 →
      files[i]? = some f →
      SUPPORTED_EXTENSIONS.lookup (lowerStr (splitext f.filename).2) = none →
      (convert_files_endpoint files subdir jid).results[i]? =
        some ⟨f.filename, false,
          "오류: 지원하지 않는 파일 형식 (" ++ lowerStr (splitext f.filename).2 ++ ")"⟩ ∧
      (i, EAct.save) ∉ (convert_files_endpoint files subdir jid).trace ∧
      (i, EAct.convertCall) ∉ (convert_files_endpoint files subdir jid).trace) := by
  constructor
  · intro input output env h
    rcases convert_unsupported_ext input output env h with ⟨h1, h2⟩
    exact ⟨h1, by rw [h2]; exact List.not_mem_nil _⟩
  · intro files subdir jid i f h200 hf h
    refine ⟨?_, ?_, ?_⟩
    · rw [endpoint_results_eq h200]
      rw [List.getElem?_map, hf]
      simp only [Option.map_some']
      unfold fileRecord
      rw [h]
    · intro hmem
      rcases endpoint_trace_mem h200 hmem with ⟨g, hg, hin⟩
      rw [hf] at hg
      cases hg
      rw [fileEvents_of_unsupported h] at hin
      cases hin
    · intro hmem
      rcases endpoint_trace_mem h200 hmem with ⟨g, hg, hin⟩
      rw [hf] at hg
      cases hg
      rw [fileEvents_of_unsupported h] at hin
      cases hin

/-- Witness for C2 at a concrete unsupported input (`.txt`). -/
theorem C2_unsupported_rejected_early_witness :
    ((convert_to_pdf "/tmp/in.txt" "/out" envAllOk).1.1 = false ∧
      Ev.createCall ∉ (convert_to_pdf "/tmp/in.txt" "/out" envAllOk).2) ∧
    ((convert_files_endpoint [⟨"bad.txt", .ok (), envAllOk⟩] none "job1").results[0]? =
        some ⟨"bad.txt", false, "오류: 지원하지 않는 파일 형식 (.txt)"⟩ ∧
      (0, EAct.save) ∉ (convert_files_endpoint [⟨"bad.txt", .ok (), envAllOk⟩] none "job1").trace ∧
      (0, EAct.convertCall) ∉
        (convert_files_endpoint [⟨"bad.txt", .ok (), envAllOk⟩] none "job1").trace) := by
  constructor
  · exact C2_unsupported_rejected_early.1 "/tmp/in.txt" "/out" envAllOk (by decide)
  · exact C2_unsupported_rejected_early.2 [⟨"bad.txt", .ok (), envAllOk⟩] none "job1" 0
      ⟨"bad.txt", .ok (), envAllOk⟩ (by decide) rfl (by decide)

theorem fileRecord_filename (a b : String) (f : UpFile) :
    (fileRecord a b f).filename = f.filename := by
  unfold fileRecord
  split
  · rfl
  · split <;> rfl

/-- C5: a request whose output-subdirectory form value contains a forward
slash, a backslash or the two-character sequence ".." is rejected with
HTTP status 400: no per-file record is produced, and no file is saved or
converted (the per-file action trace is empty). -/
theorem C5_traversal_rejected (files : List UpFile) (s : String) (jid : String)
    (h : hasTraversalChar s = true) :
    (convert_files_endpoint files (some s) jid).status = 400 ∧
    (convert_files_endpoint files (some s) jid).results = [] ∧
    (convert_files_endpoint files (some s) jid).trace = [] := by
  have hs : s ≠ "" := by
    intro he
    subst he
    exact absurd h (by decide)
  have hcond : (truthyOpt (some s) && hasTraversalChar ((some s).getD "")) = true := by
    simp [truthyOpt, hs, Option.getD, h]
  unfold convert_files_endpoint
  rw [hcond]
  exact ⟨rfl, rfl, rfl⟩

/-- Witness for C5 at the concrete subdirectory name "../secret". -/
theorem C5_traversal_rejected_witness :
    (convert_files_endpoint [⟨"a.docx", .ok (), envAllOk⟩] (some "../secret") "j").status = 400 ∧
    (convert_files_endpoint [⟨"a.docx", .ok (), envAllOk⟩] (some "../secret") "j").results = [] ∧
    (convert_files_endpoint [⟨"a.docx", .ok (), envAllOk⟩] (some "../secret") "j").trace = [] :=
  C5_traversal_rejected [⟨"a.docx", .ok (), envAllOk⟩] "../secret" "j" (by decide)

/-- C6: on every request, deletion of the per-request temporary job
directory is scheduled as a deferred post-response task — on the normal
path regardless of each file's success or failure, and also on the
path-traversal rejection path, where `add_task` runs before the HTTP 400
is raised.  (The two `os.makedirs(..., exist_ok=True)` bookkeeping calls
of the handler are modelled as succeeding.) -/
theorem C6_cleanup_always_scheduled (files : List UpFile)
    (subdir : Option String) (jid : String) :
    (convert_files_endpoint files subdir jid).cleanupScheduled = true := by
  unfold convert_files_endpoint
  split <;> rfl

/-- C8: an accepted request yields exactly one record per uploaded file,
in upload order; the record at index `i` carries the `i`-th file's
filename and is a function of that file alone, so one file's failure does
not prevent the remaining files from being processed and recorded. -/
theorem C8_one_record_per_file (files : List UpFile) (subdir : Option String)
    (jid : String)
    (h200 : (convert_files_endpoint files subdir jid).status = 200) :
    (convert_files_endpoint files subdir jid).results.length = files.length ∧
    ∀ (i : Nat) (f : UpFile), files[i]? = some f →
      (convert_files_endpoint files subdir jid).results[i]? =
        some (fileRecord (tempJobDir jid) (finalOutputDir subdir) f) ∧
      (fileRecord (tempJobDir jid) (finalOutputDir subdir) f).filename = f.filename := by
  rw [endpoint_results_eq h200]
  refine ⟨List.length_map files _, ?_⟩
  intro i f hf
  rw [List.getElem?_map, hf]
  exact ⟨rfl, fileRecord_filename _ _ f⟩

/-- Witness for C8: two uploaded files, the first of which fails to save,
still produce two records, the second carrying the second file's name. -/
theorem C8_one_record_per_file_witness :
    (convert_files_endpoint
        [⟨"a.docx", .error "disk full", envAllOk⟩, ⟨"b.docx", .ok (), envAllOk⟩]
        none "j").results.length = 2 ∧
    (fileRecord (tempJobDir "j") (finalOutputDir none)
        ⟨"b.docx", .ok (), envAllOk⟩).filename = "b.docx" := by
  have h := C8_one_record_per_file
    [⟨"a.docx", .error "disk full", envAllOk⟩, ⟨"b.docx", .ok (), envAllOk⟩]
    none "j" rfl
  exact ⟨h.1, (h.2 1 ⟨"b.docx", .ok (), envAllOk⟩ rfl).2⟩

theorem comTry_createCall (app_name : String) (fmt : Int) (env : Env) :
    Ev.createCall ∈ (comTry app_name fmt env).trace := by
  rcases env with ⟨ie, ode, mk, co, sv, od, ec, fb⟩
  unfold comTry
  dsimp only
  cases co <;> cases sv <;> cases od <;> cases ec <;> cases fb <;>
    split_ifs <;> simp

theorem comPhase_createCall (app_name : String) (fmt : Int) (env : Env) :
    Ev.createCall ∈ (comPhase app_name fmt env).2 := by
  unfold comPhase
  simp only [List.mem_append]
  exact Or.inl (Or.inl (comTry_createCall app_name fmt env))

/-- C9: extension matching is case-insensitive at both entry points: the
extension is lowercased before the lookup in `SUPPORTED_EXTENSIONS`, so an
input whose lowercased extension is supported passes the check — in
`convert_to_pdf` the run proceeds to create the application object, and in
the endpoint the file is saved for conversion. -/
theorem C9_case_insensitive_extensions :
    (∀ (input output : String) (env : Env),
      env.inputExists = true →
      (SUPPORTED_EXTENSIONS.lookup (lowerStr (splitext input).2)).isSome = true →
      (env.outputDirExists = true ∨ env.makedirs = Except.ok ()) →
      Ev.createCall ∈ (convert_to_pdf input output env).2) ∧
    (∀ (files : List UpFile) (subdir : Option String) (jid : String)
      (i : Nat) (f : UpFile),
      (convert_files_endpoint files subdir jid).status = 200 →
      files[i]? = some f →
      (SUPPORTED_EXTENSIONS.lookup (lowerStr (splitext f.filename).2)).isSome = true →
      (i, EAct.save) ∈ (convert_files_endpoint files subdir jid).trace) := by
  constructor
  · intro input output env hex hsup hdir
    unfold convert_to_pdf
    split
    · rename_i hfalse; rw [hex] at hfalse; cases hfalse
    · split
      · rename_i heq; rw [heq] at hsup; cases hsup
      · rename_i app_name heq
        split
        · rename_i e heqd
          rcases hdir with hd | hd
          · rw [hd] at heqd; cases heqd
          · rw [if_neg] at heqd
            · rw [hd] at heqd; cases heqd
            · intro hcontra
              rw [hcontra] at heqd
              cases heqd
        · rcases hc : comPhase app_name ((PDF_FORMAT_CODE.lookup app_name).getD 0) env
            with ⟨o, tr⟩
          have hm := comPhase_createCall app_name ((PDF_FORMAT_CODE.lookup app_name).getD 0) env
          rw [hc] at hm
          cases o <;> exact hm
  · intro files subdir jid i f h200 hf hsup
    exact endpoint_trace_mem_of h200 hf (fileEvents_save_mem hsup)

/-- Witness for C9 at inputs whose extensions are supported only after
lowercasing (".DOCX", ".XLSX"). -/
theorem C9_case_insensitive_extensions_witness :
    Ev.createCall ∈ (convert_to_pdf "/tmp/REPORT.DOCX" "/out" envAllOk).2 ∧
    (0, EAct.save) ∈
      (convert_files_endpoint [⟨"UPPER.XLSX", .ok (), envAllOk⟩] none "j").trace := by
  constructor
  · exact C9_case_insensitive_extensions.1 "/tmp/REPORT.DOCX" "/out" envAllOk rfl
      (by decide) (Or.inl rfl)
  · exact C9_case_insensitive_extensions.2 [⟨"UPPER.XLSX", .ok (), envAllOk⟩] none "j" 0
      ⟨"UPPER.XLSX", .ok (), envAllOk⟩ rfl rfl (by decide)

set_option maxHeartbeats 1000000 in
theorem comTry_doc_app (app_name : String) (fmt : Int) (env : Env) :
    ((Ev.openCall ∈ (comTry app_name fmt env).trace ∧ env.openDoc = Except.ok ()) →
      (comTry app_name fmt env).docAssigned = true) ∧
    (env.createObject = Except.ok () → (comTry app_name fmt env).appAssigned = true) := by
  rcases env with ⟨ie, ode, mk, co, sv, od, ec, fb⟩
  unfold comTry
  dsimp only
  cases co <;> cases sv <;> cases od <;> cases ec <;> cases fb <;>
    split_ifs <;> simp_all

theorem comPhase_trace_sub (app_name : String) (fmt : Int) (env : Env) (a : Ev)
    (ha : a ∈ (comPhase app_name fmt env).2) :
    a ∈ (comTry app_name fmt env).trace ∨ a = Ev.closeDoc ∨ a = Ev.quitApp := by
  unfold comPhase at ha
  simp only [List.mem_append] at ha
  rcases ha with (h | h) | h
  · exact Or.inl h
  · refine Or.inr (Or.inl ?_)
    revert h
    split <;> simp
  · refine Or.inr (Or.inr ?_)
    revert h
    split <;> simp

theorem comPhase_closeDoc_mem (app_name : String) (fmt : Int) (env : Env)
    (h : (comTry app_name fmt env).docAssigned = true) :
    Ev.closeDoc ∈ (comPhase app_name fmt env).2 := by
  unfold comPhase
  simp [List.mem_append, h]

theorem comPhase_quitApp_mem (app_name : String) (fmt : Int) (env : Env)
    (h : (comTry app_name fmt env).appAssigned = true) :
    Ev.quitApp ∈ (comPhase app_name fmt env).2 := by
  unfold comPhase
  simp [List.mem_append, h]

theorem comPhase_close_quit (app_name : String) (fmt : Int) (env : Env) :
    ((Ev.openCall ∈ (comPhase app_name fmt env).2 ∧ env.openDoc = Except.ok ()) →
      Ev.closeDoc ∈ (comPhase app_name fmt env).2) ∧
    ((Ev.createCall ∈ (comPhase app_name fmt env).2 ∧ env.createObject = Except.ok ()) →
      Ev.quitApp ∈ (comPhase app_name fmt env).2) := by
  constructor
  · rintro ⟨hmem, hod⟩
    rcases comPhase_trace_sub app_name fmt env _ hmem with h | h | h
    · exact comPhase_closeDoc_mem app_name fmt env
        ((comTry_doc_app app_name fmt env).1 ⟨h, hod⟩)
    · exact Ev.noConfusion h
    · exact Ev.noConfusion h
  · rintro ⟨hmem, hco⟩
    exact comPhase_quitApp_mem app_name fmt env
      ((comTry_doc_app app_name fmt env).2 hco)

/-- C4: on every run of `convert_to_pdf`, when the document-open call was
issued and returned a document, the close call is attempted, and when the
application object was created, the quit call is attempted — on the
success path and on every failure path alike (the `finally` block). -/
theorem C4_resources_released (input output : String) (env : Env) :
    ((Ev.openCall ∈ (convert_to_pdf input output env).2 ∧ env.openDoc = Except.ok ()) →
      Ev.closeDoc ∈ (convert_to_pdf input output env).2) ∧
    ((Ev.createCall ∈ (convert_to_pdf input output env).2 ∧
        env.createObject = Except.ok ()) →
      Ev.quitApp ∈ (convert_to_pdf input output env).2) := by
  unfold convert_to_pdf
  split
  · exact ⟨fun h => absurd h.1 (List.not_mem_nil _),
      fun h => absurd h.1 (List.not_mem_nil _)⟩
  · split
    · exact ⟨fun h => absurd h.1 (List.not_mem_nil _),
        fun h => absurd h.1 (List.not_mem_nil _)⟩
    · rename_i app_name heqlk
      split
      · exact ⟨fun h => absurd h.1 (List.not_mem_nil _),
          fun h => absurd h.1 (List.not_mem_nil _)⟩
      · have key := comPhase_close_quit app_name
          ((PDF_FORMAT_CODE.lookup app_name).getD 0) env
        rcases hc : comPhase app_name ((PDF_FORMAT_CODE.lookup app_name).getD 0) env
          with ⟨o, tr⟩
        rw [hc] at key
        cases o <;> exact key

/-- Witness for C4: a Word document whose export fails still sees both the
close call and the quit call attempted. -/
theorem C4_resources_released_witness :
    Ev.closeDoc ∈ (convert_to_pdf "/docs/a.docx" "/out"
      ⟨true, true, .ok (), .ok (), .ok (), .ok (), .error "export failed", .ok ()⟩).2 ∧
    Ev.quitApp ∈ (convert_to_pdf "/docs/a.docx" "/out"
      ⟨true, true, .ok (), .ok (), .ok (), .ok (), .error "export failed", .ok ()⟩).2 := by
  have h := C4_resources_released "/docs/a.docx" "/out"
    ⟨true, true, .ok (), .ok (), .ok (), .ok (), .error "export failed", .ok ()⟩
  exact ⟨h.1 ⟨by decide, rfl⟩, h.2 ⟨by decide, rfl⟩⟩

/-- C7: the output directory exists before any write: when the resolved
output directory is absent and its creation fails, `convert_to_pdf`
returns a failure without creating the application object (no external
call at all); and whenever a run issues an export or fallback save call,
the output directory either already existed or its creation succeeded. -/
theorem C7_output_dir_exists_before_write (input output : String) (env : Env) :
    (env.outputDirExists = false → ∀ e, env.makedirs = Except.error e →
      (convert_to_pdf input output env).1.1 = false ∧
      Ev.createCall ∉ (convert_to_pdf input output env).2) ∧
    ((∃ fmt, Ev.exportNative fmt ∈ (convert_to_pdf input output env).2 ∨
        Ev.fallbackSaveAs fmt ∈ (convert_to_pdf input output env).2) →
      env.outputDirExists = true ∨ env.makedirs = Except.ok ()) := by
  constructor
  · intro hodf e hmk
    unfold convert_to_pdf
    split
    · exact ⟨rfl, List.not_mem_nil _⟩
    · split
      · exact ⟨rfl, List.not_mem_nil _⟩
      · split
        · exact ⟨rfl, List.not_mem_nil _⟩
        · rename_i u heqd
          rw [hodf] at heqd
          simp only [Bool.false_eq_true, if_false] at heqd
          rw [hmk] at heqd
          cases heqd
  · rintro ⟨fmt, hmem⟩
    revert hmem
    unfold convert_to_pdf
    split
    · intro hmem; rcases hmem with h | h <;> exact absurd h (List.not_mem_nil _)
    · split
      · intro hmem; rcases hmem with h | h <;> exact absurd h (List.not_mem_nil _)
      · split
        · intro hmem; rcases hmem with h | h <;> exact absurd h (List.not_mem_nil _)
        · rename_i u heqd
          intro _
          cases hode : env.outputDirExists
          · rw [hode] at heqd
            simp only [Bool.false_eq_true, if_false] at heqd
            rcases u with ⟨⟩
            exact Or.inr heqd
          · exact Or.inl rfl

/-- Witness for C7: a failing directory creation aborts before the
application is created, and a successful all-ok run with an absent
directory implies the creation succeeded. -/
theorem C7_output_dir_exists_before_write_witness :
    ((convert_to_pdf "/docs/a.docx" "/out"
        ⟨true, false, .error "permission denied", .ok (), .ok (), .ok (), .ok (), .ok ()⟩).1.1
      = false ∧
     Ev.createCall ∉ (convert_to_pdf "/docs/a.docx" "/out"
        ⟨true, false, .error "permission denied", .ok (), .ok (), .ok (), .ok (), .ok ()⟩).2) ∧
    (envAllOk.outputDirExists = true ∨ envAllOk.makedirs = Except.ok ()) := by
  constructor
  · exact (C7_output_dir_exists_before_write "/docs/a.docx" "/out"
      ⟨true, false, .error "permission denied", .ok (), .ok (), .ok (), .ok (), .ok ()⟩).1
      rfl "permission denied" rfl
  · exact (C7_output_dir_exists_before_write "/docs/a.docx" "/out" envAllOk).2
      ⟨17, Or.inl (by decide)⟩

theorem convert_success_message (input output : String) (env : Env)
    (hsucc : (convert_to_pdf input output env).1.1 = true) :
    (convert_to_pdf input output env).1.2 = pdf_output_path input output := by
  revert hsucc
  unfold convert_to_pdf
  split
  · intro hsucc; exact Bool.noConfusion hsucc
  · split
    · intro hsucc; exact Bool.noConfusion hsucc
    · split
      · intro hsucc; exact Bool.noConfusion hsucc
      · split
        · intro _; rfl
        · intro hsucc; exact Bool.noConfusion hsucc

/-- C10: when the output path argument is the empty string the output
directory defaults to the input file's directory; in every successful run
the returned message is the resolved output directory joined with the
input's base name, extension replaced by ".pdf". -/
theorem C10_success_message_is_pdf_path (input output : String) (env : Env)
    (hsucc : (convert_to_pdf input output env).1.1 = true) :
    (convert_to_pdf input output env).1.2 =
      joinPath (if output = "" then dirname input else output)
        (basename (splitext input).1 ++ ".pdf") :=
  convert_success_message input output env hsucc

/-- Witness for C10 at the concrete input "/data/report.docx" with an
empty output path: the success message is the input directory joined with
"report.pdf". -/
theorem C10_success_message_is_pdf_path_witness :
    (convert_to_pdf "/data/report.docx" "" envAllOk).1.2 =
      joinPath (dirname "/data/report.docx")
        (basename (splitext "/data/report.docx").1 ++ ".pdf") ∧
    (convert_to_pdf "/data/report.docx" "" envAllOk).1.2 = "/data/report.pdf" := by
  constructor
  · exact C10_success_message_is_pdf_path "/data/report.docx" "" envAllOk (by decide)
  · decide

theorem lookup_app_values {x a : String}
    (h : SUPPORTED_EXTENSIONS.lookup x = some a) :
    a = "Word.Application" ∨ a = "Excel.Application" ∨ a = "PowerPoint.Application" := by
  simp only [SUPPORTED_EXTENSIONS, List.lookup] at h
  repeat' split at h
  all_goals simp_all

/-- Environment in which only the native export call fails. -/
def envExportFails : Env :=
  ⟨true, true, .ok (), .ok (), .ok (), .ok (), .error "export failed", .ok ()⟩

/-- C3 counterexample: for the supported Word input "/docs/a.docx" whose
native export call fails, `convert_to_pdf` reports failure although the
generic save-as fallback (format code 57) was never attempted — refuting
the claim that for every supported input failure is reported only after
both the native export and the fallback save-as have failed. -/
theorem C3_counterexample :
    (convert_to_pdf "/docs/a.docx" "/out" envExportFails).1.1 = false ∧
    Ev.fallbackSaveAs 57 ∉ (convert_to_pdf "/docs/a.docx" "/out" envExportFails).2 := by
  refine ⟨by decide, ?_⟩
  intro hmem
  have ht : (convert_to_pdf "/docs/a.docx" "/out" envExportFails).2 =
      [Ev.createCall, Ev.openCall, Ev.exportNative 17, Ev.closeDoc, Ev.quitApp] := by
    decide
  rw [ht] at hmem
  simp at hmem

/-- C3 amended: the documented save-as fallback exists only in the Excel
branch.  For an input mapped to Excel, the fallback (`SaveAs`, format code
57) is attempted exactly when the native `ExportAsFixedFormat` fails, and
failure is reported exactly when both fail.  For an input mapped to Word
or PowerPoint, a single native `SaveAs` is issued and its failure is
reported with no fallback attempt. -/
theorem C3_fallback_only_for_excel (input output : String) (env : Env)
    (app_name : String)
    (hex : env.inputExists = true)
    (hlk : SUPPORTED_EXTENSIONS.lookup (lowerStr (splitext input).2) = some app_name)
    (hdir : env.outputDirExists = true)
    (hco : env.createObject = Except.ok ())
    (hsv : env.setVisible = Except.ok ())
    (hod : env.openDoc = Except.ok ()) :
    (app_name = "Excel.Application" →
      (Ev.fallbackSaveAs 57 ∈ (convert_to_pdf input output env).2 ↔
        env.exportCall ≠ Except.ok ()) ∧
      ((convert_to_pdf input output env).1.1 = false ↔
        (env.exportCall ≠ Except.ok () ∧ env.fallbackSaveAs ≠ Except.ok ()))) ∧
    (app_name ≠ "Excel.Application" →
      (∀ fmt, Ev.fallbackSaveAs fmt ∉ (convert_to_pdf input output env).2) ∧
      ((convert_to_pdf input output env).1.1 = false ↔
        env.exportCall ≠ Except.ok ())) := by
  obtain ⟨ie, ode, mk, co, sv, od, ec, fb⟩ := env
  dsimp only at hex hdir hco hsv hod ⊢
  subst hex; subst hdir; subst hco; subst hsv; subst hod
  have happ := lookup_app_values hlk
  constructor
  · intro he
    subst he
    cases ec <;> cases fb <;>
      simp +decide [convert_to_pdf, hlk, comPhase, comTry]
  · intro hne
    rcases happ with h | h | h
    · subst h
      cases ec <;> cases fb <;>
        simp +decide [convert_to_pdf, hlk, comPhase, comTry]
    · exact absurd h hne
    · subst h
      cases ec <;> cases fb <;>
        simp +decide [convert_to_pdf, hlk, comPhase, comTry]

/-- Environment in which the native export fails but the fallback
succeeds. -/
def envFallbackSaves : Env :=
  ⟨true, true, .ok (), .ok (), .ok (), .ok (), .error "export failed", .ok ()⟩

/-- Witness for the amended C3 at the concrete Excel input "/d/t.xlsx":
when the native export fails and the fallback save-as succeeds, the
fallback call (format 57) appears in the trace. -/
theorem C3_fallback_only_for_excel_witness :
    Ev.fallbackSaveAs 57 ∈ (convert_to_pdf "/d/t.xlsx" "/out" envFallbackSaves).2 :=
  ((C3_fallback_only_for_excel "/d/t.xlsx" "/out" envFallbackSaves "Excel.Application"
      rfl (by decide) rfl rfl rfl rfl).1 rfl).1.mpr
    (fun h => Except.noConfusion h)
